import Mathlib

/-!
Verification of the Stavily example plugins (cpu-monitor and service-restart)
against their natural-language specification.

The Python code is shallowly embedded: each plugin instance becomes a `State`
structure, each method a pure function on it.  Every call to `datetime.now()`
or `time.time()` in the source becomes an explicit time parameter (rational
seconds), and every external sample (psutil CPU reading, subprocess outcome,
service-manager availability, hostname) becomes an explicit input, so that the
functions are total and executable.
-/

namespace Stavily

/-- Outcome of the external restart command (`_execute_restart_command` /
`_simulate_restart_command` in service_restart.py): an external collaborator,
passed in as data. -/
structure CmdResult where
  success : Bool
  error : String
  command : String
  output : String
deriving Repr, DecidableEq

/-- Plugin metadata as returned by `get_info` (same shape in both plugins).
`created_at`/`updated_at` are the two `datetime.now()` calls made inside
`get_info`.  The Python key `type` is rendered `ptype` (`type` is reserved). -/
structure PluginInfo where
  id : String
  name : String
  description : String
  version : String
  author : String
  license : String
  ptype : String
  tags : List String
  categories : List String
  created_at : ℚ
  updated_at : ℚ
deriving Repr, DecidableEq

namespace CPUM

/-- Mutable fields of `CPUMonitorPlugin`. -/
structure State where
  threshold : ℚ
  interval : ℤ
  running : Bool
  status : String
  start_time : Option ℚ
deriving Repr, DecidableEq

/-- Python `CPUMonitorPlugin.__init__`. -/
def init : State :=
  { threshold := 80, interval := 30, running := false, status := "stopped",
    start_time := none }

/-- The configuration object handed to `initialize`: the two keys the plugin
reads, already coerced to numbers (`float(...)` / `int(...)`), `none` when the
key is absent so that the Python defaults apply. -/
structure Config where
  threshold : Option ℚ
  interval : Option ℤ
deriving Repr, DecidableEq

/-- Python `CPUMonitorPlugin.initialize`: assigns threshold and interval (defaults
80.0 and 30), then validates `0 <= threshold <= 100` and `interval >= 1`;
on success status becomes "initialized", on failure "error"; returns the
success flag together with the updated state.  The field assignments happen
before validation, as in the source. -/
def initPlugin (cfg : Config) (s : State) : Bool × State :=
  let t := cfg.threshold.getD 80
  let i := cfg.interval.getD 30
  let s1 := { s with threshold := t, interval := i }
  if 0 ≤ t ∧ t ≤ 100 then
    if 1 ≤ i then
      (true, { s1 with status := "initialized" })
    else
      (false, { s1 with status := "error" })
  else
    (false, { s1 with status := "error" })

/-- Python `CPUMonitorPlugin.start`: no-op returning success when already running,
otherwise sets running/status and records `start_time := now`. -/
def start (now : ℚ) (s : State) : Bool × State :=
  if s.running then
    (true, s)
  else
    (true, { s with running := true, status := "running", start_time := some now })

/-- Python `CPUMonitorPlugin.stop`: always succeeds, clears `running`, sets status
"stopped"; note it does not clear `start_time`. -/
def stop (s : State) : Bool × State :=
  (true, { s with running := false, status := "stopped" })

/-- Python `CPUMonitorPlugin.get_status`. -/
def get_status (s : State) : String :=
  s.status

/-- Health report of cpu_monitor's `get_health` (metrics inlined). -/
structure HealthReport where
  status : String
  message : String
  last_check : ℚ
  uptime : ℚ
  error_count : ℕ
  current_cpu_usage : ℚ
  threshold : ℚ
deriving Repr, DecidableEq

/-- Python `CPUMonitorPlugin.get_health`: healthy iff `running`; uptime starts as 0
and is overwritten with `now - start_time` whenever `start_time` is set
(a datetime is always truthy), independently of `running`. -/
def get_health (now : ℚ) (cpu : ℚ) (s : State) : HealthReport :=
  { status := if s.running then "healthy" else "unhealthy"
    message := if s.running then "Plugin is running normally" else "Plugin is not running"
    last_check := now
    uptime :=
      match s.start_time with
      | none => 0
      | some st => now - st
    error_count := 0
    current_cpu_usage := cpu
    threshold := s.threshold }

/-- Python `CPUMonitorPlugin.get_info`: fixed identity except the two timestamps,
which are fresh `datetime.now()` readings on every call. -/
def get_info (t1 t2 : ℚ) : PluginInfo :=
  { id := "cpu-monitor", name := "CPU Monitor",
    description := "Monitors CPU usage and triggers alerts when threshold is exceeded",
    version := "1.0.0", author := "Stavily Team", license := "MIT",
    ptype := "trigger", tags := ["system", "monitoring", "cpu"],
    categories := ["system-monitoring"], created_at := t1, updated_at := t2 }

/-- The `data` mapping of a trigger event. -/
structure TriggerData where
  cpu_usage : ℚ
  threshold : ℚ
  cpu_count : ℕ
  load_average : Option (ℚ × ℚ × ℚ)
deriving Repr, DecidableEq

/-- A trigger event as built by `detect_triggers` (metadata inlined; the
Python key `type` is rendered `etype`). -/
structure TriggerEvent where
  id : String
  etype : String
  source : String
  timestamp : ℚ
  data : TriggerData
  plugin_id : String
  plugin_version : String
  hostname : String
  tags : List String
  severity : String
deriving Repr, DecidableEq

/-- Python `CPUMonitorPlugin.detect_triggers`: `none` unless running; samples the
CPU (here the sample `cpu` is an input), emits one event iff
`cpu > threshold`, with severity "high" iff `cpu > 90`, else "medium".
`epoch` is the `int(time.time())` used in the event id; `cc`, `la`, `host`
are the sampled cpu count, load average and hostname. -/
def detect_triggers (now : ℚ) (epoch : ℤ) (cpu : ℚ) (cc : ℕ)
    (la : Option (ℚ × ℚ × ℚ)) (host : String) (s : State) : Option TriggerEvent :=
  if s.running then
    if cpu > s.threshold then
      some { id := "cpu-high-" ++ toString epoch, etype := "cpu.high",
             source := "cpu-monitor", timestamp := now,
             data := { cpu_usage := cpu, threshold := s.threshold,
                       cpu_count := cc, load_average := la },
             plugin_id := "cpu-monitor", plugin_version := "1.0.0",
             hostname := host, tags := ["system", "cpu", "alert"],
             severity := if cpu > 90 then "high" else "medium" }
    else
      none
  else
    none

/-- The numeric content of the schema returned by `get_trigger_config`. -/
structure TriggerConfigSchema where
  threshold_default : ℚ
  threshold_minimum : ℚ
  threshold_maximum : ℚ
  interval_default : ℤ
  interval_minimum : ℤ
deriving Repr, DecidableEq

/-- Python `CPUMonitorPlugin.get_trigger_config`. -/
def get_trigger_config : TriggerConfigSchema :=
  { threshold_default := 80, threshold_minimum := 0, threshold_maximum := 100,
    interval_default := 30, interval_minimum := 1 }

end CPUM

namespace SR

/-- Mutable fields of `ServiceRestartPlugin`. -/
structure State where
  allowed_services : List String
  service_manager : String
  running : Bool
  status : String
  start_time : Option ℚ
deriving Repr, DecidableEq

/-- Python `ServiceRestartPlugin.__init__`. -/
def init : State :=
  { allowed_services := [], service_manager := "systemctl", running := false,
    status := "stopped", start_time := none }

/-- The configuration object handed to `initialize`: the two keys the plugin
reads, `none` when absent so the Python defaults apply. -/
structure Config where
  allowed_services : Option (List String)
  service_manager : Option String
deriving Repr, DecidableEq

/-- Python `ServiceRestartPlugin.initialize`: stores allowed services and manager
(defaults `[]` and "systemctl"), validates the manager name, then checks the
manager binary is available (`_check_service_manager`, a subprocess probe
passed in as `mgrAvailable`); failure sets status "error".  As in the source,
the field assignments happen before validation. -/
def initPlugin (cfg : Config) (mgrAvailable : Bool) (s : State) : Bool × State :=
  let als := cfg.allowed_services.getD []
  let mgr := cfg.service_manager.getD "systemctl"
  let s1 := { s with allowed_services := als, service_manager := mgr }
  if mgr = "systemctl" ∨ mgr = "service" ∨ mgr = "docker" then
    if mgrAvailable then
      (true, { s1 with status := "initialized" })
    else
      (false, { s1 with status := "error" })
  else
    (false, { s1 with status := "error" })

/-- Python `ServiceRestartPlugin.start`: identical to the cpu-monitor version. -/
def start (now : ℚ) (s : State) : Bool × State :=
  if s.running then
    (true, s)
  else
    (true, { s with running := true, status := "running", start_time := some now })

/-- Python `ServiceRestartPlugin.stop`. -/
def stop (s : State) : Bool × State :=
  (true, { s with running := false, status := "stopped" })

/-- Python `ServiceRestartPlugin.get_status`. -/
def get_status (s : State) : String :=
  s.status

/-- Health report of service_restart's `get_health` (metrics inlined). -/
structure HealthReport where
  status : String
  message : String
  last_check : ℚ
  uptime : ℚ
  error_count : ℕ
  service_manager : String
  allowed_services_count : ℕ
deriving Repr, DecidableEq

/-- Python `ServiceRestartPlugin.get_health`: same logic as the cpu-monitor one. -/
def get_health (now : ℚ) (s : State) : HealthReport :=
  { status := if s.running then "healthy" else "unhealthy"
    message := if s.running then "Plugin is running normally" else "Plugin is not running"
    last_check := now
    uptime :=
      match s.start_time with
      | none => 0
      | some st => now - st
    error_count := 0
    service_manager := s.service_manager
    allowed_services_count := s.allowed_services.length }

/-- Python `ServiceRestartPlugin.get_info`. -/
def get_info (t1 t2 : ℚ) : PluginInfo :=
  { id := "service-restart", name := "Service Restart",
    description := "Restarts system services using systemctl or other service managers",
    version := "1.0.0", author := "Stavily Team", license := "MIT",
    ptype := "action", tags := ["system", "service", "restart"],
    categories := ["system-management"], created_at := t1, updated_at := t2 }

/-- The `parameters` mapping of an action request: the two keys the plugin
reads, `none` when absent. -/
structure ActionParams where
  service_name : Option String
  method : Option String
deriving Repr, DecidableEq

/-- An action request: `id` is `none` when the JSON object has no "id" key,
in which case `action_request["id"]` raises `KeyError`. -/
structure ActionRequest where
  id : Option String
  parameters : ActionParams
deriving Repr, DecidableEq

/-- The `data` mapping of an action result.  On the completed path the source
adds a `success: True` entry that the failed path lacks, hence the option. -/
structure ActionData where
  service_name : String
  method : String
  command : String
  output : String
  success : Option Bool
deriving Repr, DecidableEq

/-- A terminal action result (`metadata` constants omitted; `data` is absent
on the `_create_error_result` path). -/
structure ActionResult where
  id : String
  status : String
  error : Option String
  started_at : ℚ
  completed_at : ℚ
  duration : ℚ
  data : Option ActionData
deriving Repr, DecidableEq

/-- Python `ServiceRestartPlugin._create_error_result`: a failed result stamped with
three clock readings `t1 ≤ t2 ≤ t3` (start, `completed_at`, the `now` inside
the duration computation). -/
def create_error_result (aid : String) (err : String) (t1 t2 t3 : ℚ) : ActionResult :=
  { id := aid, status := "failed", error := some err,
    started_at := t1, completed_at := t2, duration := t3 - t1, data := none }

/-- Python `ServiceRestartPlugin._is_valid_service_name`: full match of
`[a-zA-Z0-9._-]+` and length at most 100. -/
def is_valid_service_name (name : String) : Bool :=
  name.length > 0 &&
    name.toList.all (fun c => c.isAlphanum || c = Char.ofNat 46 || c = Char.ofNat 95 || c = Char.ofNat 45) &&
    name.length ≤ 100

/-- Python `ServiceRestartPlugin.execute_action`.  The three clock readings of one
call are `t1 t2 t3`, the external command outcome is `cr`.  A request without
"id" raises `KeyError` whose Python `str` is the quoted key, modelled as
`Except.error`; all other paths return a terminal result. -/
def execute_action (t1 t2 t3 : ℚ) (cr : CmdResult) (req : ActionRequest)
    (s : State) : Except String ActionResult :=
  match req.id with
  | none => Except.error "\x27id\x27"
  | some aid =>
    if s.running = false then
      Except.ok (create_error_result aid "Plugin is not running" t1 t2 t3)
    else
      match req.parameters.service_name with
      | none =>
        Except.ok (create_error_result aid "service_name parameter is required" t1 t2 t3)
      | some sn =>
        if sn = "" then
          Except.ok (create_error_result aid "service_name parameter is required" t1 t2 t3)
        else if is_valid_service_name sn = false then
          Except.ok (create_error_result aid ("Invalid service name: " ++ sn) t1 t2 t3)
        else if !s.allowed_services.isEmpty && !s.allowed_services.contains sn then
          Except.ok (create_error_result aid ("Service \x27" ++ sn ++ "\x27 is not in allowed list") t1 t2 t3)
        else
          let method := req.parameters.method.getD s.service_manager
          if (["systemctl", "service", "docker"].contains method) = false then
            Except.ok (create_error_result aid ("Unsupported method: " ++ method) t1 t2 t3)
          else if cr.success then
            Except.ok { id := aid, status := "completed", error := none,
                        started_at := t1, completed_at := t2, duration := t3 - t1,
                        data := some { service_name := sn, method := method,
                                       command := cr.command, output := cr.output,
                                       success := some true } }
          else
            Except.ok { id := aid, status := "failed", error := some cr.error,
                        started_at := t1, completed_at := t2, duration := t3 - t1,
                        data := some { service_name := sn, method := method,
                                       command := cr.command, output := cr.output,
                                       success := none } }

/-- Python `ServiceRestartPlugin._simulate_restart_command`: succeeds exactly for the
six hard-coded service names. -/
def simulate_restart_command (cmd : String) (sn : String) : CmdResult :=
  if ["nginx", "apache2", "mysql", "postgresql", "redis", "docker"].contains sn then
    { success := true, error := "", command := cmd,
      output := "Service " ++ sn ++ " restarted successfully (simulated)" }
  else
    { success := false, error := "Service " ++ sn ++ " not found (simulated)",
      command := cmd, output := "" }

end SR

/-- One response line: the keys that `main` may place in the printed object.
The normal envelope has `action` and `success`; the outer exception handler
and the JSON-decode failure print an object holding only `error`. -/
structure Response (δ : Type) where
  action : Option String
  success : Option Bool
  data : Option δ
  error : Option String
deriving Repr, DecidableEq

/-- Python string formatting of the `action` value in
`f"Unknown action: \x7baction\x7d"`: `None` renders as "None". -/
def actionName : Option String → String
  | none => "None"
  | some a => a

namespace CPUM

/-- One decoded command line for the cpu-monitor `main` loop (the keys it
reads). -/
structure Command where
  action : Option String
  config : Option Config
deriving Repr, DecidableEq

/-- The response payloads cpu_monitor's `main` can attach to `data`.
`trigger` wraps the possibly-null event of `detect_triggers` (a present
`data` key holding JSON null). -/
inductive Data
  | info (i : PluginInfo)
  | statusStr (s : String)
  | health (h : HealthReport)
  | trigger (e : Option TriggerEvent)
  | triggerConfig (c : TriggerConfigSchema)
deriving Repr, DecidableEq

/-- The environment one iteration of cpu_monitor's `main` may read: clock
values for the (up to two) `datetime.now()` calls, the `time.time()` epoch,
and the sampled cpu, cpu count, load average and hostname. -/
structure World where
  tA : ℚ
  tB : ℚ
  epoch : ℤ
  cpu : ℚ
  cc : ℕ
  la : Option (ℚ × ℚ × ℚ)
  host : String

/-- One iteration of cpu_monitor's `main` dispatch on a decoded command:
returns the single response printed for it and the updated plugin state. -/
def step (w : World) (c : Command) (s : State) : Response Data × State :=
  let a := c.action
  if a = some "get_info" then
    ({ action := a, success := some true, data := some (Data.info (get_info w.tA w.tB)),
       error := none }, s)
  else if a = some "initialize" then
    let r := initPlugin (c.config.getD { threshold := none, interval := none }) s
    ({ action := a, success := some r.1, data := none, error := none }, r.2)
  else if a = some "start" then
    let r := start w.tA s
    ({ action := a, success := some r.1, data := none, error := none }, r.2)
  else if a = some "stop" then
    let r := stop s
    ({ action := a, success := some r.1, data := none, error := none }, r.2)
  else if a = some "get_status" then
    ({ action := a, success := some true, data := some (Data.statusStr (get_status s)),
       error := none }, s)
  else if a = some "get_health" then
    ({ action := a, success := some true, data := some (Data.health (get_health w.tA w.cpu s)),
       error := none }, s)
  else if a = some "detect_triggers" then
    ({ action := a, success := some true,
       data := some (Data.trigger (detect_triggers w.tA w.epoch w.cpu w.cc w.la w.host s)),
       error := none }, s)
  else if a = some "get_trigger_config" then
    ({ action := a, success := some true, data := some (Data.triggerConfig get_trigger_config),
       error := none }, s)
  else
    ({ action := a, success := some false, data := none,
       error := some ("Unknown action: " ++ actionName a) }, s)

/-- One input line after `readline().strip()` and JSON decoding: stripped to
empty, invalid JSON, or a decoded command object. -/
inductive InLine
  | blank
  | malformed
  | cmd (c : Command)
deriving Repr, DecidableEq

/-- cpu_monitor's `main` loop over its input lines, each paired with the
environment of that iteration: a blank line breaks the loop (no response),
invalid JSON answers `Invalid JSON command` and continues, a command is
dispatched through `step`.  Returns the printed responses in order. -/
def main_loop : List (InLine × World) → State → List (Response Data)
  | [], _ => []
  | (InLine.blank, _) :: _, _ => []
  | (InLine.malformed, _) :: rest, s =>
    { action := none, success := none, data := none,
      error := some "Invalid JSON command" } :: main_loop rest s
  | (InLine.cmd c, w) :: rest, s =>
    let r := step w c s
    r.1 :: main_loop rest r.2

end CPUM

namespace SR

/-- One decoded command line for the service-restart `main` loop. -/
structure Command where
  action : Option String
  config : Option Config
  action_request : Option ActionRequest
deriving Repr, DecidableEq

/-- The response payloads service_restart's `main` can attach to `data`. -/
inductive Data
  | info (i : PluginInfo)
  | statusStr (s : String)
  | health (h : HealthReport)
  | result (r : ActionResult)
  | actionConfig
deriving Repr, DecidableEq

/-- The environment one iteration of service_restart's `main` may read:
the clock readings an iteration can make, whether the service-manager probe
succeeds, and the external restart-command outcome. -/
structure World where
  t1 : ℚ
  t2 : ℚ
  t3 : ℚ
  mgrAvailable : Bool
  cr : CmdResult

/-- The empty dict `main` substitutes for a missing `action_request` key. -/
def emptyRequest : ActionRequest :=
  { id := none, parameters := { service_name := none, method := none } }

/-- One iteration of service_restart's `main` dispatch on a decoded command.
The `except Exception` around the loop body catches the `KeyError` that
`execute_action` raises on a request without "id" and replaces the response
with the bare `Plugin error: ...` object. -/
def step (w : World) (c : Command) (s : State) : Response Data × State :=
  let a := c.action
  if a = some "get_info" then
    ({ action := a, success := some true, data := some (Data.info (get_info w.t1 w.t2)),
       error := none }, s)
  else if a = some "initialize" then
    let r := initPlugin (c.config.getD { allowed_services := none, service_manager := none })
      w.mgrAvailable s
    ({ action := a, success := some r.1, data := none, error := none }, r.2)
  else if a = some "start" then
    let r := start w.t1 s
    ({ action := a, success := some r.1, data := none, error := none }, r.2)
  else if a = some "stop" then
    let r := stop s
    ({ action := a, success := some r.1, data := none, error := none }, r.2)
  else if a = some "get_status" then
    ({ action := a, success := some true, data := some (Data.statusStr (get_status s)),
       error := none }, s)
  else if a = some "get_health" then
    ({ action := a, success := some true, data := some (Data.health (get_health w.t1 s)),
       error := none }, s)
  else if a = some "execute_action" then
    match execute_action w.t1 w.t2 w.t3 w.cr (c.action_request.getD emptyRequest) s with
    | Except.ok r =>
      ({ action := a, success := some true, data := some (Data.result r), error := none }, s)
    | Except.error msg =>
      ({ action := none, success := none, data := none,
         error := some ("Plugin error: " ++ msg) }, s)
  else if a = some "get_action_config" then
    ({ action := a, success := some true, data := some Data.actionConfig, error := none }, s)
  else
    ({ action := a, success := some false, data := none,
       error := some ("Unknown action: " ++ actionName a) }, s)

/-- One input line for service_restart's `main`, as for the cpu monitor. -/
inductive InLine
  | blank
  | malformed
  | cmd (c : Command)
deriving Repr, DecidableEq

/-- service_restart's `main` loop, mirroring `CPUM.main_loop`. -/
def main_loop : List (InLine × World) → State → List (Response Data)
  | [], _ => []
  | (InLine.blank, _) :: _, _ => []
  | (InLine.malformed, _) :: rest, s =>
    { action := none, success := none, data := none,
      error := some "Invalid JSON command" } :: main_loop rest s
  | (InLine.cmd c, w) :: rest, s =>
    let r := step w c s
    r.1 :: main_loop rest r.2

end SR

/-- The action names recognized by cpu_monitor's dispatch. -/
def cpu_known_actions : List String :=
  ["get_info", "initialize", "start", "stop", "get_status", "get_health",
   "detect_triggers", "get_trigger_config"]

/-- The action names recognized by service_restart's dispatch. -/
def sr_known_actions : List String :=
  ["get_info", "initialize", "start", "stop", "get_status", "get_health",
   "execute_action", "get_action_config"]

end Stavily

namespace Stavily

/-- C1, counterexample: the claim that uptime is 0 when the plugin is not
running fails.  Start the cpu monitor at time 0, stop it, and ask for health
at time 5: the plugin is not running, yet the reported uptime is 5, because
`stop` never clears `start_time`. -/
theorem C1_counterexample :
    (CPUM.stop (CPUM.start 0 CPUM.init).2).2.running = false ∧
    (CPUM.get_health 5 50 (CPUM.stop (CPUM.start 0 CPUM.init).2).2).uptime = 5 ∧
    (5 : ℚ) ≠ 0 := by
  refine ⟨rfl, ?_, by norm_num⟩
  norm_num [CPUM.get_health, CPUM.stop, CPUM.start, CPUM.init]

/-- C1, amended: for both plugins, `get_health` reports status "healthy" iff
the plugin is running; uptime is 0 only while `start_time` is unset (never
started), and equals now − start_time from the first `start` on — including
after `stop`, since `stop` leaves `start_time` in place. -/
theorem C1_uptime_healthy (now0 now1 now2 cpu : ℚ) (s : CPUM.State) (t : SR.State)
    (u : CPUM.State) (v : SR.State)
    (hs : s.running = false) (hs0 : s.start_time = none)
    (ht : t.running = false) (ht0 : t.start_time = none) :
    ((CPUM.get_health now1 cpu u).status = "healthy" ↔ u.running = true) ∧
    ((SR.get_health now1 v).status = "healthy" ↔ v.running = true) ∧
    (CPUM.get_health now1 cpu s).uptime = 0 ∧
    (SR.get_health now1 t).uptime = 0 ∧
    (CPUM.get_health now1 cpu (CPUM.start now0 s).2).uptime = now1 - now0 ∧
    (SR.get_health now1 (SR.start now0 t).2).uptime = now1 - now0 ∧
    (CPUM.get_health now2 cpu (CPUM.stop (CPUM.start now0 s).2).2).uptime = now2 - now0 ∧
    (SR.get_health now2 (SR.stop (SR.start now0 t).2).2).uptime = now2 - now0 := by
  refine ⟨?_, ?_, ?_, ?_, ?_, ?_, ?_, ?_⟩
  · cases hu : u.running <;> simp [CPUM.get_health, hu]
  · cases hv : v.running <;> simp [SR.get_health, hv]
  · simp [CPUM.get_health, hs0]
  · simp [SR.get_health, ht0]
  · simp [CPUM.get_health, CPUM.start, hs]
  · simp [SR.get_health, SR.start, ht]
  · simp [CPUM.get_health, CPUM.stop, CPUM.start, hs]
  · simp [SR.get_health, SR.stop, SR.start, ht]

/-- C1, witness: `C1_uptime_healthy` instantiated on the fresh states. -/
theorem C1_witness :
    ((CPUM.get_health 9 50 (CPUM.start 2 CPUM.init).2).uptime = 9 - 2) ∧
    ((SR.get_health 9 (SR.stop (SR.start 2 SR.init).2).2).uptime = 9 - 2) :=
  ⟨(C1_uptime_healthy 2 9 9 50 CPUM.init SR.init CPUM.init SR.init rfl rfl rfl rfl).2.2.2.2.1,
   (C1_uptime_healthy 2 9 9 50 CPUM.init SR.init CPUM.init SR.init rfl rfl rfl rfl).2.2.2.2.2.2.2⟩

/-- C2, counterexample: two `get_info` calls are not identical field for
field — `created_at` (and `updated_at`) is a fresh clock reading on every
call, so calls at clock values 0 and 1 differ. -/
theorem C2_counterexample :
    (CPUM.get_info 0 0).created_at ≠ (CPUM.get_info 1 1).created_at ∧
    (SR.get_info 0 0).created_at ≠ (SR.get_info 1 1).created_at := by
  norm_num [CPUM.get_info, SR.get_info]

/-- C2, amended: for both plugins any two `get_info` results agree on every
field except `created_at`/`updated_at`, which are exactly the clock readings
of the call. -/
theorem C2_static_info (t1 t2 u1 u2 : ℚ) :
    CPUM.get_info t1 t2 =
      { CPUM.get_info u1 u2 with created_at := t1, updated_at := t2 } ∧
    SR.get_info t1 t2 =
      { SR.get_info u1 u2 with created_at := t1, updated_at := t2 } :=
  ⟨rfl, rfl⟩

/-- C3: on a running cpu monitor, `detect_triggers` returns `none` whenever
the sampled value is at most the threshold (boundary included), and exactly
one event whose `data.cpu_usage` is the sample and whose severity is "high"
iff the sample exceeds 90, whenever the sample exceeds the threshold; in the
configured scenario (threshold 80.0, interval 30, sample 95.0) the event has
`data.cpu_usage = 95` and severity "high". -/
theorem C3_detect_triggers (now now0 : ℚ) (epoch : ℤ) (v : ℚ) (cc : ℕ)
    (la : Option (ℚ × ℚ × ℚ)) (host : String) (s : CPUM.State)
    (hrun : s.running = true) :
    (v ≤ s.threshold → CPUM.detect_triggers now epoch v cc la host s = none) ∧
    (s.threshold < v →
      ∃ e, CPUM.detect_triggers now epoch v cc la host s = some e ∧
        e.data.cpu_usage = v ∧
        e.severity = if 90 < v then "high" else "medium") ∧
    ((CPUM.initPlugin { threshold := some 80, interval := some 30 } CPUM.init).1 = true ∧
     ∃ e, CPUM.detect_triggers now epoch 95 cc la host
        (CPUM.start now0 (CPUM.initPlugin { threshold := some 80, interval := some 30 } CPUM.init).2).2
        = some e ∧ e.data.cpu_usage = 95 ∧ e.severity = "high") := by
  refine ⟨?_, ?_, ?_, ?_⟩
  · intro h
    simp [CPUM.detect_triggers, hrun, not_lt.mpr h]
  · intro h
    have hd : CPUM.detect_triggers now epoch v cc la host s =
        some { id := "cpu-high-" ++ toString epoch, etype := "cpu.high",
               source := "cpu-monitor", timestamp := now,
               data := { cpu_usage := v, threshold := s.threshold, cpu_count := cc,
                         load_average := la },
               plugin_id := "cpu-monitor", plugin_version := "1.0.0", hostname := host,
               tags := ["system", "cpu", "alert"],
               severity := if 90 < v then "high" else "medium" } := by
      simp [CPUM.detect_triggers, hrun, h]
    exact ⟨_, hd, rfl, rfl⟩
  · norm_num [CPUM.initPlugin, CPUM.init]
  · have hd : CPUM.detect_triggers now epoch 95 cc la host
        (CPUM.start now0 (CPUM.initPlugin { threshold := some 80, interval := some 30 } CPUM.init).2).2 =
        some { id := "cpu-high-" ++ toString epoch, etype := "cpu.high",
               source := "cpu-monitor", timestamp := now,
               data := { cpu_usage := 95, threshold := 80, cpu_count := cc,
                         load_average := la },
               plugin_id := "cpu-monitor", plugin_version := "1.0.0", hostname := host,
               tags := ["system", "cpu", "alert"], severity := "high" } := by
      norm_num [CPUM.detect_triggers, CPUM.start, CPUM.initPlugin, CPUM.init]
    exact ⟨_, hd, rfl, rfl⟩

/-- C3, witness: `C3_detect_triggers` on a running plugin with threshold 80,
at samples 50 (below: no event) and 95 (above: event). -/
theorem C3_witness :
    (CPUM.detect_triggers 1 7 50 4 none "host"
      { threshold := 80, interval := 30, running := true, status := "running",
        start_time := some 0 } = none) ∧
    (∃ e, CPUM.detect_triggers 1 7 95 4 none "host"
      { threshold := 80, interval := 30, running := true, status := "running",
        start_time := some 0 } = some e ∧
      e.data.cpu_usage = 95 ∧ e.severity = if (90:ℚ) < 95 then "high" else "medium") :=
  ⟨(C3_detect_triggers 1 0 7 50 4 none "host" _ rfl).1 (by norm_num),
   (C3_detect_triggers 1 0 7 95 4 none "host" _ rfl).2.1 (by norm_num)⟩

/-- C4: for the cpu monitor, any config whose (defaulted) threshold lies
outside the inclusive range [0, 100] or whose interval is below 1 makes
`initialize` return failure and leaves the status — hence a subsequent
`get_status()` — at "error"; the bounds are inclusive: threshold 0 and
threshold 100 are accepted. -/
theorem C4_invalid_config (s : CPUM.State) (cfg : CPUM.Config)
    (hbad : ¬ (0 ≤ cfg.threshold.getD 80 ∧ cfg.threshold.getD 80 ≤ 100) ∨
      cfg.interval.getD 30 < 1) :
    ((CPUM.initPlugin cfg s).1 = false ∧
     CPUM.get_status (CPUM.initPlugin cfg s).2 = "error") ∧
    ((CPUM.initPlugin { threshold := some 0, interval := some 1 } s).1 = true ∧
     (CPUM.initPlugin { threshold := some 100, interval := some 1 } s).1 = true) := by
  constructor
  · rcases hbad with h | h
    · simp [CPUM.initPlugin, CPUM.get_status, h]
    · by_cases h0 : 0 ≤ cfg.threshold.getD 80 ∧ cfg.threshold.getD 80 ≤ 100
      · simp [CPUM.initPlugin, CPUM.get_status, h0, not_le.mpr h]
      · simp [CPUM.initPlugin, CPUM.get_status, h0]
  · norm_num [CPUM.initPlugin]

/-- C4, witness: `C4_invalid_config` at threshold 101 (out of range) and at
interval 0 (below 1). -/
theorem C4_witness :
    ((CPUM.initPlugin { threshold := some 101, interval := some 30 } CPUM.init).1 = false ∧
     CPUM.get_status (CPUM.initPlugin { threshold := some 101, interval := some 30 } CPUM.init).2 = "error") ∧
    ((CPUM.initPlugin { threshold := some 80, interval := some 0 } CPUM.init).1 = false ∧
     CPUM.get_status (CPUM.initPlugin { threshold := some 80, interval := some 0 } CPUM.init).2 = "error") :=
  ⟨(C4_invalid_config CPUM.init { threshold := some 101, interval := some 30 }
      (Or.inl (by norm_num))).1,
   (C4_invalid_config CPUM.init { threshold := some 80, interval := some 0 }
      (Or.inr (by norm_num))).1⟩

/-- C5: on a running service-restart plugin, a request (with id) whose
parameters lack `service_name` (absent or empty, both falsy in Python) gets
a failed result with the descriptive message "service_name parameter is
required" and the request id; when the plugin is not running, the result is
failed with "Plugin is not running", again preserving the id.  Error results
always carry status "failed", the given id, and the given message. -/
theorem C5_missing_service_name (t1 t2 t3 : ℚ) (cr : CmdResult) (req : SR.ActionRequest)
    (s : SR.State) (aid : String) (hid : req.id = some aid)
    (hsn : req.parameters.service_name = none ∨ req.parameters.service_name = some "") :
    (s.running = true →
      SR.execute_action t1 t2 t3 cr req s =
        Except.ok (SR.create_error_result aid "service_name parameter is required" t1 t2 t3)) ∧
    (s.running = false →
      SR.execute_action t1 t2 t3 cr req s =
        Except.ok (SR.create_error_result aid "Plugin is not running" t1 t2 t3)) ∧
    ∀ msg, (SR.create_error_result aid msg t1 t2 t3).status = "failed" ∧
      (SR.create_error_result aid msg t1 t2 t3).id = aid ∧
      (SR.create_error_result aid msg t1 t2 t3).error = some msg := by
  refine ⟨?_, ?_, fun msg => ⟨rfl, rfl, rfl⟩⟩
  · intro h
    rcases hsn with hn | hn <;>
      simp [SR.execute_action, hid, h, hn]
  · intro h
    simp [SR.execute_action, hid, h]

/-- C5, witness: `C5_missing_service_name` on a concrete running state and on
the fresh (not running) state. -/
theorem C5_witness :
    (SR.execute_action 0 1 1 { success := true, error := "", command := "", output := "" }
      { id := some "a1", parameters := { service_name := none, method := none } }
      { allowed_services := [], service_manager := "systemctl", running := true,
        status := "running", start_time := some 0 } =
      Except.ok (SR.create_error_result "a1" "service_name parameter is required" 0 1 1)) ∧
    (SR.execute_action 0 1 1 { success := true, error := "", command := "", output := "" }
      { id := some "a1", parameters := { service_name := none, method := none } }
      SR.init =
      Except.ok (SR.create_error_result "a1" "Plugin is not running" 0 1 1)) :=
  ⟨(C5_missing_service_name 0 1 1 _ _ _ "a1" rfl (Or.inl rfl)).1 rfl,
   (C5_missing_service_name 0 1 1 _ _ _ "a1" rfl (Or.inl rfl)).2.1 rfl⟩

/-- C6, counterexample: the claim that the state is "running" after two
consecutive `start` calls fails on a reachable instance.  Start the plugin,
then `initialize` it with a valid config (the dispatch loop accepts this
order): the running flag stays true while the status becomes "initialized".
Both subsequent `start` calls return success but leave the status at
"initialized", not "running". -/
theorem C6_counterexample :
    ((CPUM.initPlugin { threshold := some 80, interval := some 30 }
        (CPUM.start 0 CPUM.init).2).2.running = true) ∧
    ((CPUM.start 1 (CPUM.initPlugin { threshold := some 80, interval := some 30 }
        (CPUM.start 0 CPUM.init).2).2).1 = true) ∧
    ((CPUM.start 2 (CPUM.start 1 (CPUM.initPlugin { threshold := some 80, interval := some 30 }
        (CPUM.start 0 CPUM.init).2).2).2).1 = true) ∧
    ((CPUM.start 2 (CPUM.start 1 (CPUM.initPlugin { threshold := some 80, interval := some 30 }
        (CPUM.start 0 CPUM.init).2).2).2).2.status = "initialized") ∧
    "initialized" ≠ "running" := by
  refine ⟨?_, ?_, ?_, ?_, by decide⟩ <;>
    norm_num [CPUM.start, CPUM.initPlugin, CPUM.init]

/-- C6, amended: for both plugins, two consecutive `start` calls both return
success and the second call leaves the whole state — in particular
`start_time` — unchanged; when the plugin was not already flagged running
before the first call, the resulting status is "running" with `start_time`
set by the first call.  (When the running flag was already set, status and
`start_time` keep their prior values, which need not be "running".) -/
theorem C6_start_idempotent (t1 t2 : ℚ) (s : CPUM.State) (t : SR.State) :
    ((CPUM.start t1 s).1 = true ∧
     (CPUM.start t2 (CPUM.start t1 s).2).1 = true ∧
     (CPUM.start t2 (CPUM.start t1 s).2).2 = (CPUM.start t1 s).2 ∧
     (s.running = false →
       (CPUM.start t2 (CPUM.start t1 s).2).2.status = "running" ∧
       (CPUM.start t2 (CPUM.start t1 s).2).2.start_time = some t1)) ∧
    ((SR.start t1 t).1 = true ∧
     (SR.start t2 (SR.start t1 t).2).1 = true ∧
     (SR.start t2 (SR.start t1 t).2).2 = (SR.start t1 t).2 ∧
     (t.running = false →
       (SR.start t2 (SR.start t1 t).2).2.status = "running" ∧
       (SR.start t2 (SR.start t1 t).2).2.start_time = some t1)) := by
  constructor
  · cases hs : s.running <;> simp [CPUM.start, hs]
  · cases ht : t.running <;> simp [SR.start, ht]

/-- C6, witness: `C6_start_idempotent` on the fresh states at times 3, 4. -/
theorem C6_witness :
    ((CPUM.start 4 (CPUM.start 3 CPUM.init).2).2.status = "running" ∧
     (CPUM.start 4 (CPUM.start 3 CPUM.init).2).2.start_time = some 3) ∧
    ((SR.start 4 (SR.start 3 SR.init).2).2.status = "running" ∧
     (SR.start 4 (SR.start 3 SR.init).2).2.start_time = some 3) :=
  ⟨(C6_start_idempotent 3 4 CPUM.init SR.init).1.2.2.2 rfl,
   (C6_start_idempotent 3 4 CPUM.init SR.init).2.2.2.2 rfl⟩

/-- C7: every terminal result of `execute_action` — error path and
completed/failed path alike — carries `started_at = t1`, `completed_at = t2`
and `duration = t3 - t1`, where t1 ≤ t2 ≤ t3 are the call's successive clock
readings; hence duration differs from completed_at − started_at exactly by
the gap t3 − t2 between the last two readings, which is nonnegative and
within any bound `eps` on the clock resolution. -/
theorem C7_duration_consistent (t1 t2 t3 eps : ℚ) (cr : CmdResult)
    (req : SR.ActionRequest) (s : SR.State) (r : SR.ActionResult)
    (h : SR.execute_action t1 t2 t3 cr req s = Except.ok r)
    (h23 : t2 ≤ t3) (heps : t3 - t2 ≤ eps) :
    r.started_at = t1 ∧ r.completed_at = t2 ∧ r.duration = t3 - t1 ∧
    r.duration - (r.completed_at - r.started_at) = t3 - t2 ∧
    0 ≤ r.duration - (r.completed_at - r.started_at) ∧
    r.duration - (r.completed_at - r.started_at) ≤ eps := by
  have hfields : r.started_at = t1 ∧ r.completed_at = t2 ∧ r.duration = t3 - t1 := by
    obtain ⟨oid, osn, om⟩ := req
    cases oid with
    | none => exact absurd h (by simp [SR.execute_action])
    | some aid =>
      cases osn with
      | none =>
        simp only [SR.execute_action] at h
        repeat' split at h
        all_goals
          injection h with h
        all_goals
          subst h
        all_goals
          exact ⟨rfl, rfl, rfl⟩
      | some sn =>
        simp only [SR.execute_action] at h
        repeat' split at h
        all_goals
          injection h with h
        all_goals
          subst h
        all_goals
          exact ⟨rfl, rfl, rfl⟩
  obtain ⟨h1, h2, h3⟩ := hfields
  have key : r.duration - (r.completed_at - r.started_at) = t3 - t2 := by
    rw [h1, h2, h3]
    ring
  refine ⟨h1, h2, h3, key, ?_, ?_⟩
  · rw [key]
    linarith
  · rw [key]
    linarith

/-- C7, witness: `C7_duration_consistent` on the not-running error path with
clock readings 0, 1, 1 and tolerance 0. -/
theorem C7_witness :
    (SR.create_error_result "a1" "Plugin is not running" 0 1 1).duration -
      ((SR.create_error_result "a1" "Plugin is not running" 0 1 1).completed_at -
       (SR.create_error_result "a1" "Plugin is not running" 0 1 1).started_at) = 1 - 1 ∧
    (SR.create_error_result "a1" "Plugin is not running" 0 1 1).started_at = 0 :=
  ⟨(C7_duration_consistent 0 1 1 0 { success := true, error := "", command := "", output := "" }
      { id := some "a1", parameters := { service_name := none, method := none } }
      SR.init _ rfl (by norm_num) (by norm_num)).2.2.2.1,
   (C7_duration_consistent 0 1 1 0 { success := true, error := "", command := "", output := "" }
      { id := some "a1", parameters := { service_name := none, method := none } }
      SR.init _ rfl (by norm_num) (by norm_num)).1⟩

/-- C8: in both dispatch loops, a well-formed command whose action value is
recognized by neither plugin produces exactly one response, of the form
action = the value, success = false, error = "Unknown action: value", with
the plugin state untouched; the loop then continues with the rest of the
input. -/
theorem C8_unknown_action (a : String) (w : CPUM.World) (w2 : SR.World)
    (c : CPUM.Command) (c2 : SR.Command) (s : CPUM.State) (t : SR.State)
    (rest : List (CPUM.InLine × CPUM.World)) (rest2 : List (SR.InLine × SR.World))
    (ha : c.action = some a) (ha2 : c2.action = some a)
    (h1 : a ∉ cpu_known_actions) (h2 : a ∉ sr_known_actions) :
    CPUM.step w c s =
      ({ action := some a, success := some false, data := none,
         error := some ("Unknown action: " ++ a) }, s) ∧
    SR.step w2 c2 t =
      ({ action := some a, success := some false, data := none,
         error := some ("Unknown action: " ++ a) }, t) ∧
    CPUM.main_loop ((CPUM.InLine.cmd c, w) :: rest) s =
      { action := some a, success := some false, data := none,
        error := some ("Unknown action: " ++ a) } :: CPUM.main_loop rest s ∧
    SR.main_loop ((SR.InLine.cmd c2, w2) :: rest2) t =
      { action := some a, success := some false, data := none,
        error := some ("Unknown action: " ++ a) } :: SR.main_loop rest2 t := by
  obtain ⟨n1, n2, n3, n4, n5, n6, n7, n8⟩ :
      a ≠ "get_info" ∧ a ≠ "initialize" ∧ a ≠ "start" ∧ a ≠ "stop" ∧
      a ≠ "get_status" ∧ a ≠ "get_health" ∧ a ≠ "detect_triggers" ∧
      a ≠ "get_trigger_config" := by
    simpa [cpu_known_actions, not_or] using h1
  obtain ⟨-, -, -, -, -, -, m7, m8⟩ :
      a ≠ "get_info" ∧ a ≠ "initialize" ∧ a ≠ "start" ∧ a ≠ "stop" ∧
      a ≠ "get_status" ∧ a ≠ "get_health" ∧ a ≠ "execute_action" ∧
      a ≠ "get_action_config" := by
    simpa [sr_known_actions, not_or] using h2
  have hc : CPUM.step w c s =
      ({ action := some a, success := some false, data := none,
         error := some ("Unknown action: " ++ a) }, s) := by
    simp [CPUM.step, ha, actionName, n1, n2, n3, n4, n5, n6, n7, n8]
  have hsr : SR.step w2 c2 t =
      ({ action := some a, success := some false, data := none,
         error := some ("Unknown action: " ++ a) }, t) := by
    simp [SR.step, ha2, actionName, n1, n2, n3, n4, n5, n6, m7, m8]
  refine ⟨hc, hsr, ?_, ?_⟩
  · simp [CPUM.main_loop, hc]
  · simp [SR.main_loop, hsr]

/-- C8, witness: `C8_unknown_action` at the unknown action "foo" on the two
fresh plugin states. -/
theorem C8_witness :
    CPUM.step
      { tA := 0, tB := 0, epoch := 0, cpu := 0, cc := 1, la := none, host := "h" }
      { action := some "foo", config := none } CPUM.init =
      ({ action := some "foo", success := some false, data := none,
         error := some ("Unknown action: " ++ "foo") }, CPUM.init) ∧
    SR.step
      { t1 := 0, t2 := 0, t3 := 0, mgrAvailable := true,
        cr := { success := true, error := "", command := "", output := "" } }
      { action := some "foo", config := none, action_request := none } SR.init =
      ({ action := some "foo", success := some false, data := none,
         error := some ("Unknown action: " ++ "foo") }, SR.init) :=
  ⟨(C8_unknown_action "foo"
      { tA := 0, tB := 0, epoch := 0, cpu := 0, cc := 1, la := none, host := "h" }
      { t1 := 0, t2 := 0, t3 := 0, mgrAvailable := true,
        cr := { success := true, error := "", command := "", output := "" } }
      { action := some "foo", config := none }
      { action := some "foo", config := none, action_request := none }
      CPUM.init SR.init [] [] rfl rfl (by decide) (by decide)).1,
   (C8_unknown_action "foo"
      { tA := 0, tB := 0, epoch := 0, cpu := 0, cc := 1, la := none, host := "h" }
      { t1 := 0, t2 := 0, t3 := 0, mgrAvailable := true,
        cr := { success := true, error := "", command := "", output := "" } }
      { action := some "foo", config := none }
      { action := some "foo", config := none, action_request := none }
      CPUM.init SR.init [] [] rfl rfl (by decide) (by decide)).2.1⟩

/-- Helper for C9: everything after a blank line is ignored by the
cpu-monitor loop. -/
theorem cpu_main_loop_blank_append (w : CPUM.World)
    (p rest : List (CPUM.InLine × CPUM.World)) (s : CPUM.State) :
    CPUM.main_loop (p ++ (CPUM.InLine.blank, w) :: rest) s = CPUM.main_loop p s := by
  induction p generalizing s with
  | nil => rfl
  | cons hd tl ih =>
    obtain ⟨l, w0⟩ := hd
    cases l with
    | blank => rfl
    | malformed => simp [CPUM.main_loop, ih]
    | cmd c => simp [CPUM.main_loop, ih]

/-- Helper for C9: everything after a blank line is ignored by the
service-restart loop. -/
theorem sr_main_loop_blank_append (w : SR.World)
    (p rest : List (SR.InLine × SR.World)) (s : SR.State) :
    SR.main_loop (p ++ (SR.InLine.blank, w) :: rest) s = SR.main_loop p s := by
  induction p generalizing s with
  | nil => rfl
  | cons hd tl ih =>
    obtain ⟨l, w0⟩ := hd
    cases l with
    | blank => rfl
    | malformed => simp [SR.main_loop, ih]
    | cmd c => simp [SR.main_loop, ih]

/-- C9: both dispatch loops stop at the first line that strips to empty
(`InLine.blank` covers empty and whitespace-only lines): no response is
emitted for that line, none of the later lines are processed, and the output
for any stream containing a blank equals the output for the stream truncated
at the blank — a mid-stream blank is indistinguishable from end of input. -/
theorem C9_blank_line_terminates (w : CPUM.World) (w2 : SR.World)
    (p rest : List (CPUM.InLine × CPUM.World)) (q rest2 : List (SR.InLine × SR.World))
    (s : CPUM.State) (t : SR.State) :
    CPUM.main_loop ((CPUM.InLine.blank, w) :: rest) s = [] ∧
    CPUM.main_loop (p ++ (CPUM.InLine.blank, w) :: rest) s = CPUM.main_loop p s ∧
    SR.main_loop ((SR.InLine.blank, w2) :: rest2) t = [] ∧
    SR.main_loop (q ++ (SR.InLine.blank, w2) :: rest2) t = SR.main_loop q t :=
  ⟨rfl, cpu_main_loop_blank_append w p rest s, rfl,
   sr_main_loop_blank_append w2 q rest2 t⟩

/-- C10: an execute_action command whose action_request lacks "id" (in
particular the empty object substituted for a missing action_request key,
whose id is `none`) makes `execute_action` raise `KeyError` — `Except.error`
with Python's message, the quoted key — instead of returning a result; the
dispatch loop's outer handler then answers with the protocol-level response
holding only `error = "Plugin error: 'id'"`: no action echo, no success flag,
no ActionResult, no request-id correlation; the state is unchanged and the
loop continues. -/
theorem C10_missing_id (w : SR.World) (c : SR.Command) (s : SR.State)
    (rest : List (SR.InLine × SR.World))
    (ha : c.action = some "execute_action")
    (hreq : (c.action_request.getD SR.emptyRequest).id = none) :
    SR.emptyRequest.id = none ∧
    SR.execute_action w.t1 w.t2 w.t3 w.cr (c.action_request.getD SR.emptyRequest) s =
      Except.error "\x27id\x27" ∧
    SR.step w c s =
      ({ action := none, success := none, data := none,
         error := some ("Plugin error: " ++ "\x27id\x27") }, s) ∧
    SR.main_loop ((SR.InLine.cmd c, w) :: rest) s =
      { action := none, success := none, data := none,
        error := some ("Plugin error: " ++ "\x27id\x27") } :: SR.main_loop rest s := by
  have hex : SR.execute_action w.t1 w.t2 w.t3 w.cr (c.action_request.getD SR.emptyRequest) s =
      Except.error "\x27id\x27" := by
    unfold SR.execute_action
    rw [hreq]
  have hst : SR.step w c s =
      ({ action := none, success := none, data := none,
         error := some ("Plugin error: " ++ "\x27id\x27") }, s) := by
    simp [SR.step, ha, hex]
  exact ⟨rfl, hex, hst, by simp [SR.main_loop, hst]⟩

/-- C10, witness: `C10_missing_id` on a command with no action_request key
(the substituted empty object has no id). -/
theorem C10_witness :
    SR.execute_action 0 1 2
      { success := true, error := "", command := "", output := "" }
      SR.emptyRequest SR.init = Except.error "\x27id\x27" ∧
    SR.step
      { t1 := 0, t2 := 1, t3 := 2, mgrAvailable := true,
        cr := { success := true, error := "", command := "", output := "" } }
      { action := some "execute_action", config := none, action_request := none } SR.init =
      ({ action := none, success := none, data := none,
         error := some ("Plugin error: " ++ "\x27id\x27") }, SR.init) :=
  ⟨(C10_missing_id
      { t1 := 0, t2 := 1, t3 := 2, mgrAvailable := true,
        cr := { success := true, error := "", command := "", output := "" } }
      { action := some "execute_action", config := none, action_request := none }
      SR.init [] rfl rfl).2.1,
   (C10_missing_id
      { t1 := 0, t2 := 1, t3 := 2, mgrAvailable := true,
        cr := { success := true, error := "", command := "", output := "" } }
      { action := some "execute_action", config := none, action_request := none }
      SR.init [] rfl rfl).2.2.1⟩

end Stavily
